import Mathlib

/-!
Verification development for a GeoCOM ASCII protocol client
(`utility_functions.py`, `TSControl_Template.py`).

Bytes are modelled as `Nat` values (0..255); byte strings as `List Nat`.
Fallible Python code is modelled with `Except PyErr`; the mutable serial
object is modelled by explicit state passing of a `Transport` record.
-/

set_option autoImplicit false

/-- ASCII bytes of a Lean string literal, used to write byte-string
constants readably. -/
def bytesOfAscii (s : String) : List Nat :=
  s.toList.map (fun c => c.toNat)

/-- Python `bytes.split(sep)` for a single-byte separator: splits on every
occurrence, and the empty input yields one empty field. -/
def splitOnByte (sep : Nat) : List Nat → List (List Nat)
  | [] => [[]]
  | b :: rest =>
    match splitOnByte sep rest with
    | [] => [[]]
    | h :: t => if b = sep then [] :: h :: t else (b :: h) :: t

/-- Python `bytes.split(sep, 1)` for a single-byte separator: the part
before the first occurrence, and `some` remainder when the separator
occurs at all. -/
def splitOnceOnByte (sep : Nat) : List Nat → List Nat × Option (List Nat)
  | [] => ([], none)
  | b :: rest =>
    if b = sep then ([], some rest)
    else
      match splitOnceOnByte sep rest with
      | (h, t) => (b :: h, t)

/-- ASCII decimal digit test on a byte. -/
def isDigitByte (b : Nat) : Bool := 48 ≤ b && b ≤ 57

/-- ASCII whitespace bytes stripped by Python `int()`. -/
def pyWsByte (b : Nat) : Bool :=
  b = 32 || b = 9 || b = 10 || b = 13 || b = 11 || b = 12

/-- Strip leading and trailing ASCII whitespace, as Python `int()` does
before parsing a numeric literal. -/
def pyStripWs (l : List Nat) : List Nat :=
  ((l.dropWhile pyWsByte).reverse.dropWhile pyWsByte).reverse

/-- Accumulating digit scanner for Python integer literals: digits, with
single underscores allowed only between digits. -/
def digitsVal : Nat → List Nat → Option Nat
  | acc, [] => some acc
  | _, [95] => none
  | acc, 95 :: b :: rest =>
    if isDigitByte b then digitsVal (acc * 10 + (b - 48)) rest else none
  | acc, b :: rest =>
    if isDigitByte b then digitsVal (acc * 10 + (b - 48)) rest else none

/-- Nonempty run of decimal digits (Python integer literal without sign). -/
def pyDigits : List Nat → Option Nat
  | [] => none
  | b :: rest => if isDigitByte b then digitsVal (b - 48) rest else none

/-- Python `int(bytes)`: strip ASCII whitespace, optional sign, decimal
digits; `none` models the `ValueError` raised on an invalid literal. -/
def pyIntOfBytes (l : List Nat) : Option Int :=
  match pyStripWs l with
  | 43 :: rest => (pyDigits rest).map (fun n => (n : Int))
  | 45 :: rest => (pyDigits rest).map (fun n => -(n : Int))
  | s => (pyDigits s).map (fun n => (n : Int))

/-- Python `bytes.rstrip(b"\r\n")`: removes every trailing byte that is
CR (13) or LF (10), however many there are. -/
def rstripCRLF (l : List Nat) : List Nat :=
  (l.reverse.dropWhile (fun b => b = 13 || b = 10)).reverse

/-- A code point the `ascii` codec accepts. -/
def isAsciiByte (b : Nat) : Bool := b < 128

/-- The Python exceptions the modelled code can raise, refined by raise
site. Python classes: `connectionError` and `communicationError` are
`ConnectionError`; `unpackError`, `headerCountError`, `replyTypeError`,
`intParseError`, `unicodeDecodeError` and `rpcError` are `ValueError`
(decode-class errors); `encodeError` is `UnicodeEncodeError`;
`portNotOpenError` and `serialWriteError` come from the serial transport;
`nameError` is `NameError` on an unbound global. -/
inductive PyErr where
  | connectionError
  | unpackError
  | headerCountError (n : Nat)
  | replyTypeError
  | intParseError (lit : List Nat)
  | unicodeDecodeError (lit : List Nat)
  | encodeError
  | portNotOpenError
  | serialWriteError
  | communicationError (code : Int)
  | rpcError (code : Int)
  | nameError
  deriving DecidableEq, Repr

/-- The errors the spec groups as ProtocolError: malformed frame (missing
colon delimiter, bad header field count, wrong reply-type tag). -/
def isProtocolError : PyErr → Bool
  | .unpackError => true
  | .headerCountError _ => true
  | .replyTypeError => true
  | _ => false

/-- Decimal ASCII digits of a natural number, most significant first,
with structural fuel (`fuel > digits` suffices; callers pass `n + 1`). -/
def natDigitsAux : Nat → Nat → List Nat
  | 0, _ => []
  | fuel + 1, n =>
    if n < 10 then [48 + n] else natDigitsAux fuel (n / 10) ++ [48 + n % 10]

/-- Python `str(n)` for a natural number, as ASCII bytes. -/
def natDigits (n : Nat) : List Nat := natDigitsAux (n + 1) n

/-- Python `str(i)` for an integer, as ASCII bytes (minus sign 45 for
negatives). -/
def strOfInt : Int → List Nat
  | .ofNat n => natDigits n
  | .negSucc n => 45 :: natDigits (n + 1)

/-- Request parameter values: the closed set of renderable values the
scripts pass (integers and text). `strOfVal` is Python `str()`. -/
inductive PyVal where
  | int (i : Int)
  | text (s : List Nat)
  deriving DecidableEq, Repr

/-- Default string rendering of a parameter value (Python `str`). -/
def strOfVal : PyVal → List Nat
  | .int i => strOfInt i
  | .text s => s

/-- Python `",".join(strings)`. -/
def joinComma : List (List Nat) → List Nat
  | [] => []
  | [x] => x
  | x :: y :: rest => x ++ 44 :: joinComma (y :: rest)

/-- `tr_id: str = "" if transaction_id is None else str(transaction_id)`
(utility_functions.py line 71). -/
def trIdStr : Option Int → List Nat
  | none => []
  | some n => strOfInt n

/-- The request f-string of `send_request` (utility_functions.py line 77):
`"%R1Q,{rpc_code}{tr_id}:{parameters}{TERMINATION_STRING}"` with the
parameters joined by commas. -/
def requestString (rpc_code : Int) (parameters : List PyVal)
    (transaction_id : Option Int) : List Nat :=
  bytesOfAscii "%R1Q," ++ strOfInt rpc_code ++ trIdStr transaction_id ++
    bytesOfAscii ":" ++ joinComma (parameters.map strOfVal) ++ bytesOfAscii "\r\n"

/-- Python `str.encode("ascii")`: succeeds iff every code point is below
128, else raises `UnicodeEncodeError`. -/
def asciiEncode (s : List Nat) : Except PyErr (List Nat) :=
  if s.all isAsciiByte then .ok s else .error .encodeError

/-- The encoding part of `send_request`: build the request string and
ASCII-encode it. -/
def encodeRequest (rpc_code : Int) (parameters : List PyVal)
    (transaction_id : Option Int) : Except PyErr (List Nat) :=
  asciiEncode (requestString rpc_code parameters transaction_id)

/-- State of the serial transport (`serial.Serial`): whether the port is
open, the buffered incoming reply lines, the log of frames written so
far, and a fault flag modelling a write call that raises a serial
exception. -/
structure Transport where
  is_open : Bool
  inbuf : List (List Nat)
  written : List (List Nat)
  writeFails : Bool
  deriving DecidableEq, Repr

/-- `serial.Serial.write`: raises `PortNotOpenError` on a closed port,
may raise a serial exception (modelled by `writeFails`), otherwise
appends the frame to the write log. -/
def transportWrite (t : Transport) (frame : List Nat) :
    Except PyErr Unit × Transport :=
  if !t.is_open then (.error .portNotOpenError, t)
  else if t.writeFails then (.error .serialWriteError, t)
  else (.ok (), { t with written := t.written ++ [frame] })

/-- `serial.Serial.readline`: raises `PortNotOpenError` on a closed port;
on timeout with nothing buffered it returns the empty byte string,
otherwise the next buffered line. -/
def transportReadline (t : Transport) : Except PyErr (List Nat) × Transport :=
  if !t.is_open then (.error .portNotOpenError, t)
  else
    match t.inbuf with
    | [] => (.ok [], t)
    | l :: rest => (.ok l, { t with inbuf := rest })

/-- `serial.Serial.close`: marks the port closed. -/
def closeTransport (t : Transport) : Transport := { t with is_open := false }

/-- `send_request` (utility_functions.py lines 52..81): build the request
string, ASCII-encode it, write it to the serial connection. -/
def send_request (t : Transport) (rpc_code : Int) (parameters : List PyVal)
    (transaction_id : Option Int) : Except PyErr Unit × Transport :=
  match encodeRequest rpc_code parameters transaction_id with
  | .error e => (.error e, t)
  | .ok request_string => transportWrite t request_string

/-- `_get_response_header` (utility_functions.py lines 119..151): split
the header on commas; 2 fields give no transaction id, 3 fields given an
integer transaction id, any other count raises; then the reply-type field
must be `%R1P`; then the transaction id and the communication return code
are parsed as integers, in that order. Returns
(communication_return_code, transaction_id). -/
def _get_response_header (header : List Nat) : Except PyErr (Int × Option Int) :=
  match splitOnByte 44 header with
  | [reply_type, comm] =>
    if reply_type ≠ bytesOfAscii "%R1P" then .error .replyTypeError
    else
      match pyIntOfBytes comm with
      | none => .error (.intParseError comm)
      | some c => .ok (c, none)
  | [reply_type, comm, tid] =>
    if reply_type ≠ bytesOfAscii "%R1P" then .error .replyTypeError
    else
      match pyIntOfBytes tid with
      | none => .error (.intParseError tid)
      | some ti =>
        match pyIntOfBytes comm with
        | none => .error (.intParseError comm)
        | some c => .ok (c, some ti)
  | parts => .error (.headerCountError parts.length)

/-- Each response parameter decoded as ASCII text
(`[param.decode('ascii') for param in params_list]`,
utility_functions.py line 172): the first parameter holding a byte of
128 or more raises `UnicodeDecodeError`. -/
def decodeParamsAscii : List (List Nat) → Except PyErr (List (List Nat))
  | [] => .ok []
  | p :: rest =>
    if p.all isAsciiByte then
      match decodeParamsAscii rest with
      | .error e => .error e
      | .ok l => .ok (p :: l)
    else .error (.unicodeDecodeError p)

/-- The parsing of the already-rstripped parameters part
(utility_functions.py lines 169..174): split on commas; the first field
is the return code, the rest are the parameters; the parameters are
ASCII-decoded (line 172, evaluated first) and then the return code is
parsed as an integer (line 174). -/
def parseParams (parameters : List Nat) : Except PyErr (Int × List (List Nat)) :=
  match decodeParamsAscii (splitOnByte 44 parameters).tail with
  | .error e => .error e
  | .ok parameters_as_string =>
    match pyIntOfBytes ((splitOnByte 44 parameters).headD []) with
    | none => .error (.intParseError ((splitOnByte 44 parameters).headD []))
    | some rc => .ok (rc, parameters_as_string)

/-- `_get_response_parameters` (utility_functions.py lines 154..174):
rstrip every trailing CR/LF byte, then parse the remainder. -/
def _get_response_parameters (raw_parameters : List Nat) :
    Except PyErr (Int × List (List Nat)) :=
  parseParams (rstripCRLF raw_parameters)

/-- A decoded reply in the source return order of `get_response`:
(rpc_return_code, parameters, transaction_id, communication_return_code). -/
abbrev DecodedReply := Int × List (List Nat) × Option Int × Int

/-- The parsing part of `get_response` (utility_functions.py lines
106..116), applied to the raw line returned by `readline`: the empty
line raises `ConnectionError` before any parsing; then the line is split
once on the colon (a missing colon makes the tuple unpacking raise);
then the header and parameters parts are parsed. -/
def decodeResponseLine (response : List Nat) : Except PyErr DecodedReply :=
  if response = [] then .error .connectionError
  else
    match splitOnceOnByte 58 response with
    | (_, none) => .error .unpackError
    | (header_part, some parameters_part) =>
      match _get_response_header header_part with
      | .error e => .error e
      | .ok (communication_return_code, transaction_id) =>
        match _get_response_parameters parameters_part with
        | .error e => .error e
        | .ok (rpc_return_code, parameters) =>
          .ok (rpc_return_code, parameters, transaction_id, communication_return_code)

/-- `get_response` (utility_functions.py lines 84..116): read one line
from the serial connection and decode it. -/
def get_response (t : Transport) : Except PyErr DecodedReply × Transport :=
  match transportReadline t with
  | (.error e, t1) => (.error e, t1)
  | (.ok response, t1) => (decodeResponseLine response, t1)

/-- `TPSConnection.execute` (TSControl_Template.py lines 49..72): send
the request, read and decode the response, then classify: a non-zero
communication return code raises the communications error (a Python
`ConnectionError` carrying the code), else a non-zero rpc return code
raises the rpc error (a Python `ValueError` carrying the code), else the
decoded tuple is returned. -/
def TPSConnection.execute (t : Transport) (rpc_code : Int)
    (parameters : List PyVal) (transaction_id : Option Int) :
    Except PyErr DecodedReply × Transport :=
  match send_request t rpc_code parameters transaction_id with
  | (.error e, t1) => (.error e, t1)
  | (.ok _, t1) =>
    match get_response t1 with
    | (.error e, t2) => (.error e, t2)
    | (.ok (rpc_return_code, ps, tr, communication_return_code), t2) =>
      if communication_return_code ≠ 0 then
        (.error (.communicationError communication_return_code), t2)
      else if rpc_return_code ≠ 0 then
        (.error (.rpcError rpc_return_code), t2)
      else (.ok (rpc_return_code, ps, tr, communication_return_code), t2)

/-- What the module-level global name `tps` refers to while a session is
being closed: unbound (the `NameError` case), bound to the very session
being closed (the situation in the main script), or bound to some other
connection object. -/
inductive TpsGlobal where
  | unbound
  | boundToSelf
  | boundToOther (conn : Transport)
  deriving DecidableEq, Repr

/-- `TPSConnection.__exit__` (TSControl_Template.py lines 40..47):
`self.execute(2008, parameters=[0, 0])`, then
`tps.execute(2020, parameters=[2,])` on the module-level global name
`tps`, then `self.close()`. There is no exception handling: an exception
from either execute call (or a `NameError` on an unbound `tps`)
propagates and `self.close()` is never reached. -/
def exitTPS (self : Transport) (tpsGlobal : TpsGlobal) :
    Except PyErr Unit × Transport × TpsGlobal :=
  match TPSConnection.execute self 2008 [PyVal.int 0, PyVal.int 0] none with
  | (.error e, self1) => (.error e, self1, tpsGlobal)
  | (.ok _, self1) =>
    match tpsGlobal with
    | .unbound => (.error .nameError, self1, .unbound)
    | .boundToSelf =>
      match TPSConnection.execute self1 2020 [PyVal.int 2] none with
      | (.error e, self2) => (.error e, self2, .boundToSelf)
      | (.ok _, self2) => (.ok (), closeTransport self2, .boundToSelf)
    | .boundToOther other =>
      match TPSConnection.execute other 2020 [PyVal.int 2] none with
      | (.error e, other1) => (.error e, self1, .boundToOther other1)
      | (.ok _, other1) => (.ok (), closeTransport self1, .boundToOther other1)

/-- `gon2rad` (utility_functions.py line 178): `angle * np.pi / 200`,
read over the real numbers. -/
noncomputable def gon2rad (angle : ℝ) : ℝ := angle * Real.pi / 200

/-- `rad2gon` (utility_functions.py line 183): `angle * 200 / np.pi`,
read over the real numbers. -/
noncomputable def rad2gon (angle : ℝ) : ℝ := angle * 200 / Real.pi

/-- `deg2rad` (utility_functions.py line 188): `np.deg2rad(angles)`,
that is `angles * np.pi / 180`, read over the real numbers. -/
noncomputable def deg2rad (angle : ℝ) : ℝ := angle * Real.pi / 180

/-- `rad2deg` (utility_functions.py line 193): `np.rad2deg(angles)`,
that is `angles * 180 / np.pi`, read over the real numbers. -/
noncomputable def rad2deg (angle : ℝ) : ℝ := angle * 180 / Real.pi

/-! ### Helper lemmas -/

theorem natDigitsAux_ascii (fuel n : Nat) :
    (natDigitsAux fuel n).all isAsciiByte = true := by
  induction fuel generalizing n with
  | zero => rfl
  | succ fuel ih =>
    simp only [natDigitsAux]
    split
    · next h => simp [isAsciiByte]; omega
    · simp [List.all_append, ih, isAsciiByte]; omega

theorem strOfInt_ascii (i : Int) : (strOfInt i).all isAsciiByte = true := by
  cases i with
  | ofNat n => exact natDigitsAux_ascii _ _
  | negSucc n => simp [strOfInt, natDigits, natDigitsAux_ascii, isAsciiByte]

theorem trIdStr_ascii (o : Option Int) : (trIdStr o).all isAsciiByte = true := by
  cases o with
  | none => rfl
  | some n => exact strOfInt_ascii n

theorem joinComma_all (p : Nat → Bool) (hp : p 44 = true) :
    ∀ ls : List (List Nat), (joinComma ls).all p = ls.all (fun l => l.all p)
  | [] => rfl
  | [x] => by simp [joinComma]
  | x :: y :: rest => by
    simp [joinComma, List.all_append, hp, joinComma_all p hp (y :: rest)]

theorem all_map_strOfVal (ls : List PyVal) :
    ((ls.map strOfVal).all fun l => l.all isAsciiByte) =
      ls.all fun v => (strOfVal v).all isAsciiByte := by
  induction ls with
  | nil => rfl
  | cons v rest ih => simp [ih]

theorem requestString_ascii (rpc_code : Int) (parameters : List PyVal)
    (transaction_id : Option Int) :
    (requestString rpc_code parameters transaction_id).all isAsciiByte =
      parameters.all (fun v => (strOfVal v).all isAsciiByte) := by
  have hj := joinComma_all isAsciiByte (by decide) (parameters.map strOfVal)
  have h1 : (bytesOfAscii "%R1Q,").all isAsciiByte = true := by decide
  have h2 : (bytesOfAscii ":").all isAsciiByte = true := by decide
  have h3 : (bytesOfAscii "\r\n").all isAsciiByte = true := by decide
  simp [requestString, List.all_append, strOfInt_ascii, trIdStr_ascii, hj,
    h1, h2, h3, all_map_strOfVal]

theorem dropWhile_append_all (p : Nat → Bool) (a b : List Nat)
    (ha : ∀ x ∈ a, p x = true) : (a ++ b).dropWhile p = b.dropWhile p := by
  induction a with
  | nil => rfl
  | cons x rest ih =>
    have hx : p x = true := ha x (by simp)
    simp [List.dropWhile_cons, hx]
    exact ih (fun y hy => ha y (by simp [hy]))

theorem rstripCRLF_append (l tail : List Nat)
    (ht : ∀ b ∈ tail, b = 13 ∨ b = 10) :
    rstripCRLF (l ++ tail) = rstripCRLF l := by
  unfold rstripCRLF
  rw [List.reverse_append]
  rw [dropWhile_append_all _ tail.reverse l.reverse]
  intro x hx
  rcases ht x (List.mem_reverse.mp hx) with rfl | rfl <;> rfl

theorem splitOnce_none_iff (sep : Nat) (l : List Nat) :
    (splitOnceOnByte sep l).2 = none ↔ sep ∉ l := by
  induction l with
  | nil => simp [splitOnceOnByte]
  | cons b rest ih =>
    by_cases hb : b = sep
    · subst hb; simp [splitOnceOnByte]
    · rcases hr : splitOnceOnByte sep rest with ⟨h1, t1⟩
      rw [hr] at ih
      have hbs : ¬ (sep = b) := fun h => hb h.symm
      simp [splitOnceOnByte, hb, hr, List.mem_cons, ih, hbs]

theorem decodeParamsAscii_error (l : List (List Nat)) (e : PyErr)
    (h : decodeParamsAscii l = .error e) :
    ∃ p, e = PyErr.unicodeDecodeError p := by
  induction l with
  | nil => simp [decodeParamsAscii] at h
  | cons p rest ih =>
    simp only [decodeParamsAscii] at h
    split at h
    · cases hr : decodeParamsAscii rest with
      | error e2 =>
        rw [hr] at h
        simp only [Except.error.injEq] at h
        exact ih (by rw [hr, h])
      | ok l2 => rw [hr] at h; simp at h
    · simp only [Except.error.injEq] at h
      exact ⟨p, h.symm⟩

theorem params_error_not_protocol (l : List Nat) (e : PyErr)
    (h : _get_response_parameters l = .error e) : isProtocolError e = false := by
  unfold _get_response_parameters parseParams at h
  cases hd : decodeParamsAscii (splitOnByte 44 (rstripCRLF l)).tail with
  | error e2 =>
    rw [hd] at h
    simp only [Except.error.injEq] at h
    rcases decodeParamsAscii_error _ _ (by rw [hd, h]) with ⟨p, rfl⟩
    rfl
  | ok ps =>
    rw [hd] at h
    cases hi : pyIntOfBytes ((splitOnByte 44 (rstripCRLF l)).headD []) with
    | none => rw [hi] at h; simp only [Except.error.injEq] at h; rw [← h]; rfl
    | some rc => rw [hi] at h; simp at h

theorem transportWrite_is_open (t : Transport) (f : List Nat) :
    ((transportWrite t f).2).is_open = t.is_open := by
  cases h1 : t.is_open <;> cases h2 : t.writeFails <;>
    simp [transportWrite, h1, h2]

theorem transportReadline_is_open (t : Transport) :
    ((transportReadline t).2).is_open = t.is_open := by
  cases h1 : t.is_open <;> cases h2 : t.inbuf <;>
    simp [transportReadline, h1, h2]

theorem transportReadline_written (t : Transport) :
    ((transportReadline t).2).written = t.written := by
  cases h1 : t.is_open <;> cases h2 : t.inbuf <;>
    simp [transportReadline, h1, h2]

theorem send_request_is_open (t : Transport) (r : Int) (p : List PyVal)
    (i : Option Int) : ((send_request t r p i).2).is_open = t.is_open := by
  unfold send_request
  cases h : encodeRequest r p i with
  | error e => rfl
  | ok f => exact transportWrite_is_open t f

theorem get_response_is_open (t : Transport) :
    ((get_response t).2).is_open = t.is_open := by
  unfold get_response
  rcases h : transportReadline t with ⟨res, t1⟩
  have h1 : t1.is_open = t.is_open := by
    rw [← transportReadline_is_open t, h]
  cases res <;> simpa using h1

theorem get_response_written (t : Transport) :
    ((get_response t).2).written = t.written := by
  unfold get_response
  rcases h : transportReadline t with ⟨res, t1⟩
  have h1 : t1.written = t.written := by
    rw [← transportReadline_written t, h]
  cases res <;> simpa using h1

theorem execute_is_open (t : Transport) (r : Int) (p : List PyVal)
    (i : Option Int) :
    ((TPSConnection.execute t r p i).2).is_open = t.is_open := by
  unfold TPSConnection.execute
  rcases hs : send_request t r p i with ⟨rs, t1⟩
  have h1 : t1.is_open = t.is_open := by
    rw [← send_request_is_open t r p i, hs]
  cases rs with
  | error e => simp [hs, h1]
  | ok u =>
    rcases hg : get_response t1 with ⟨rg, t2⟩
    have h2 : t2.is_open = t1.is_open := by
      rw [← get_response_is_open t1, hg]
    cases rg with
    | error e => simp [hs, hg, h2, h1]
    | ok d =>
      rcases d with ⟨a, bb, cc, dd⟩
      simp only [hs, hg]
      split_ifs <;> simp [h2, h1]

theorem execute_written_ok (t : Transport) (r : Int) (p : List PyVal)
    (i : Option Int) (frame : List Nat) (ho : t.is_open = true)
    (hw : t.writeFails = false) (he : encodeRequest r p i = .ok frame) :
    ((TPSConnection.execute t r p i).2).written = t.written ++ [frame] := by
  have hsend : send_request t r p i =
      (.ok (), { t with written := t.written ++ [frame] }) := by
    simp [send_request, he, transportWrite, ho, hw]
  unfold TPSConnection.execute
  rcases hg : get_response { t with written := t.written ++ [frame] } with ⟨rg, t2⟩
  have h2 : t2.written = t.written ++ [frame] := by
    have hgw := get_response_written { t with written := t.written ++ [frame] }
    rw [hg] at hgw
    simpa using hgw
  cases rg with
  | error e => simp [hsend, hg, h2]
  | ok d =>
    rcases d with ⟨a, bb, cc, dd⟩
    simp only [hsend, hg]
    split_ifs <;> simp [h2]

theorem header_protocol_iff (hdr : List Nat) :
    (∃ e, _get_response_header hdr = .error e ∧ isProtocolError e = true) ↔
      (((splitOnByte 44 hdr).length ≠ 2 ∧ (splitOnByte 44 hdr).length ≠ 3) ∨
       (splitOnByte 44 hdr).headD [] ≠ bytesOfAscii "%R1P") := by
  rcases hs : splitOnByte 44 hdr with _ | ⟨a, _ | ⟨b, _ | ⟨c, _ | ⟨d, rest⟩⟩⟩⟩
  · apply iff_of_true
    · exact ⟨.headerCountError 0, by simp [_get_response_header, hs], rfl⟩
    · exact Or.inl (by simp [hs])
  · apply iff_of_true
    · exact ⟨.headerCountError 1, by simp [_get_response_header, hs], rfl⟩
    · exact Or.inl (by simp [hs])
  · by_cases ha : a = bytesOfAscii "%R1P"
    · apply iff_of_false
      · rintro ⟨e, he, hp⟩
        simp only [_get_response_header, hs, ha, ne_eq, not_true_eq_false,
          if_false, ite_false] at he
        rcases hb : pyIntOfBytes b with _ | cval
        · rw [hb] at he
          simp only [Except.error.injEq] at he
          rw [← he] at hp
          simp [isProtocolError] at hp
        · rw [hb] at he
          simp at he
      · simp [hs, ha]
    · apply iff_of_true
      · refine ⟨.replyTypeError, ?_, rfl⟩
        simp [_get_response_header, hs, ha]
      · exact Or.inr (by simp [hs]; exact ha)
  · by_cases ha : a = bytesOfAscii "%R1P"
    · apply iff_of_false
      · rintro ⟨e, he, hp⟩
        simp only [_get_response_header, hs, ha, ne_eq, not_true_eq_false,
          if_false, ite_false] at he
        rcases hc : pyIntOfBytes c with _ | tival
        · rw [hc] at he
          simp only [Except.error.injEq] at he
          rw [← he] at hp
          simp [isProtocolError] at hp
        · rw [hc] at he
          rcases hb : pyIntOfBytes b with _ | cval
          · rw [hb] at he
            simp only [Except.error.injEq] at he
            rw [← he] at hp
            simp [isProtocolError] at hp
          · rw [hb] at he
            simp at he
      · simp [hs, ha]
    · apply iff_of_true
      · refine ⟨.replyTypeError, ?_, rfl⟩
        simp [_get_response_header, hs, ha]
      · exact Or.inr (by simp [hs]; exact ha)
  · apply iff_of_true
    · exact ⟨.headerCountError (rest.length + 4),
        by simp [_get_response_header, hs], rfl⟩
    · exact Or.inl (by simp [hs])

/-! ### Claims -/

/-- Claim C3: decode maps the reply b"%R1P,0,5:0,2,TPS1200\r\n" to
communication_status 0, transaction id 5, rpc_status 0 and parameters
["2", "TPS1200"], and maps b"%R1P,0:0\r\n" (two-field header) to no
transaction id, rpc_status 0 and an empty parameter list. -/
theorem claim_C3_decode_examples :
    decodeResponseLine (bytesOfAscii "%R1P,0,5:0,2,TPS1200\r\n") =
      .ok (0, [bytesOfAscii "2", bytesOfAscii "TPS1200"], some 5, 0) ∧
    decodeResponseLine (bytesOfAscii "%R1P,0:0\r\n") = .ok (0, [], none, 0) :=
  ⟨rfl, rfl⟩

/-- Claim C6: decoding the empty input (zero bytes read, e.g. after a
read timeout) fails with ConnectionError, before any parsing of the
frame; in particular a read on an open port with nothing buffered
produces exactly this failure. -/
theorem claim_C6_empty_input :
    decodeResponseLine [] = .error .connectionError ∧
    get_response ⟨true, [], [], false⟩ =
      (.error .connectionError, ⟨true, [], [], false⟩) :=
  ⟨rfl, rfl⟩

/-- Claim C4: encode produces "%R1Q," followed by the decimal rpc_code
with the decimal transaction id appended directly (no separator) when
present and omitted when absent, then ":", then the default string
renderings of the parameters joined with ",", then "\r\n"; it fails with
the encoding error exactly when some rendered parameter value contains a
non-ASCII character. In particular
encode(2008, [0, 0], None) = b"%R1Q,2008:0,0\r\n". -/
theorem claim_C4_encode :
    (∀ (rpc_code : Int) (parameters : List PyVal) (transaction_id : Option Int),
      if parameters.all (fun v => (strOfVal v).all isAsciiByte) = true
      then encodeRequest rpc_code parameters transaction_id =
        .ok (bytesOfAscii "%R1Q," ++ strOfInt rpc_code ++ trIdStr transaction_id ++
          bytesOfAscii ":" ++ joinComma (parameters.map strOfVal) ++
          bytesOfAscii "\r\n")
      else encodeRequest rpc_code parameters transaction_id = .error .encodeError) ∧
    encodeRequest 2008 [PyVal.int 0, PyVal.int 0] none =
      .ok (bytesOfAscii "%R1Q,2008:0,0\r\n") := by
  constructor
  · intro rpc_code parameters transaction_id
    split
    · next hall =>
      unfold encodeRequest asciiEncode
      rw [requestString_ascii, hall]
      simp [requestString]
    · next hall =>
      unfold encodeRequest asciiEncode
      rw [requestString_ascii]
      simp only [Bool.not_eq_true] at hall
      simp [hall]
  · rfl

/-- Claim C8: the angle conversions are the stated pure formulas
(x * pi / 200 and x * 200 / pi), and over real arithmetic the
composition gon2rad (rad2gon x) is exactly x, as is the degree/radian
round trip. -/
theorem claim_C8_angle_conversions :
    (∀ x : ℝ, gon2rad x = x * Real.pi / 200) ∧
    (∀ x : ℝ, rad2gon x = x * 200 / Real.pi) ∧
    (∀ x : ℝ, gon2rad (rad2gon x) = x) ∧
    (∀ x : ℝ, deg2rad (rad2deg x) = x) := by
  have hpi : Real.pi ≠ 0 := Real.pi_ne_zero
  refine ⟨fun x => rfl, fun x => rfl, fun x => ?_, fun x => ?_⟩
  · unfold gon2rad rad2gon
    field_simp
  · unfold deg2rad rad2deg
    field_simp

/-- Claim C7: execute on a session whose port is not open fails with the
port-not-open precondition error before any bytes are written: the
transport state is returned unchanged. (Hypothesis: the request itself
encodes, which holds for every parameter list that renders as ASCII.) -/
theorem claim_C7_requires_open (t : Transport) (rpc_code : Int)
    (parameters : List PyVal) (transaction_id : Option Int) (frame : List Nat)
    (hclosed : t.is_open = false)
    (henc : encodeRequest rpc_code parameters transaction_id = .ok frame) :
    TPSConnection.execute t rpc_code parameters transaction_id =
      (.error .portNotOpenError, t) := by
  simp [TPSConnection.execute, send_request, henc, transportWrite, hclosed]

/-- Witness for claim C7 at a concrete closed transport. -/
theorem claim_C7_witness :
    TPSConnection.execute ⟨false, [], [], false⟩ 2008 [] none =
      (.error .portNotOpenError, ⟨false, [], [], false⟩) :=
  claim_C7_requires_open ⟨false, [], [], false⟩ 2008 [] none
    (bytesOfAscii "%R1Q,2008:\r\n") rfl rfl

/-- Claim C2: execute classifies a decoded reply in this order: non-zero
communication status fails with the communication error carrying that
code (taking precedence over a non-zero rpc status), else a non-zero rpc
status fails with the rpc error carrying that code, else execute returns
rpc_status 0, the parameter strings, the transaction id and
communication_status 0. -/
theorem claim_C2_execute_classification (t : Transport)
    (rest : List (List Nat)) (raw : List Nat) (rpc_code : Int)
    (parameters : List PyVal) (transaction_id : Option Int) (frame : List Nat)
    (r c : Int) (ps : List (List Nat)) (ti : Option Int)
    (hopen : t.is_open = true) (hwf : t.writeFails = false)
    (hbuf : t.inbuf = raw :: rest)
    (henc : encodeRequest rpc_code parameters transaction_id = .ok frame)
    (hdec : decodeResponseLine raw = .ok (r, ps, ti, c)) :
    (c ≠ 0 → (TPSConnection.execute t rpc_code parameters transaction_id).1 =
      .error (.communicationError c)) ∧
    (c = 0 → r ≠ 0 →
      (TPSConnection.execute t rpc_code parameters transaction_id).1 =
        .error (.rpcError r)) ∧
    (c = 0 → r = 0 →
      (TPSConnection.execute t rpc_code parameters transaction_id).1 =
        .ok (0, ps, ti, 0)) := by
  have hsend : send_request t rpc_code parameters transaction_id =
      (.ok (), { t with written := t.written ++ [frame] }) := by
    simp [send_request, henc, transportWrite, hopen, hwf]
  have hread : transportReadline { t with written := t.written ++ [frame] } =
      (.ok raw, { t with written := t.written ++ [frame], inbuf := rest }) := by
    simp [transportReadline, hopen, hbuf]
  have hresp : get_response { t with written := t.written ++ [frame] } =
      (.ok (r, ps, ti, c),
        { t with written := t.written ++ [frame], inbuf := rest }) := by
    simp [get_response, hread, hdec]
  refine ⟨fun hc => ?_, fun hc hr => ?_, fun hc hr => ?_⟩
  · simp only [TPSConnection.execute, hsend, hresp]
    simp [hc]
  · subst hc
    simp only [TPSConnection.execute, hsend, hresp]
    simp [hr]
  · subst hc
    subst hr
    simp only [TPSConnection.execute, hsend, hresp]
    simp

/-- Witness for claim C2 at a concrete reply with communication status 5
and rpc status 3: the communication error wins. -/
theorem claim_C2_witness :
    (TPSConnection.execute ⟨true, [bytesOfAscii "%R1P,5:3\r\n"], [], false⟩
      17022 [] none).1 = .error (.communicationError 5) :=
  (claim_C2_execute_classification
    ⟨true, [bytesOfAscii "%R1P,5:3\r\n"], [], false⟩ []
    (bytesOfAscii "%R1P,5:3\r\n") 17022 [] none
    (bytesOfAscii "%R1Q,17022:\r\n") 3 5 [] none
    rfl rfl rfl rfl rfl).1 (by decide)

/-- Claim C5: for a non-empty raw line, decode fails with a
protocol-class error (missing colon delimiter, bad header field count,
or wrong reply-type tag) exactly when the line contains no colon, or the
header split on commas has a field count other than 2 or 3, or the
reply-type field differs from "%R1P". -/
theorem claim_C5_protocol_error (raw : List Nat) (hne : raw ≠ []) :
    (∃ e, decodeResponseLine raw = .error e ∧ isProtocolError e = true) ↔
      ((58 : Nat) ∉ raw ∨
       ((splitOnByte 44 (splitOnceOnByte 58 raw).1).length ≠ 2 ∧
        (splitOnByte 44 (splitOnceOnByte 58 raw).1).length ≠ 3) ∨
       (splitOnByte 44 (splitOnceOnByte 58 raw).1).headD [] ≠
         bytesOfAscii "%R1P") := by
  rcases hsp : splitOnceOnByte 58 raw with ⟨hd, o⟩
  dsimp only
  cases o with
  | none =>
    have hmem : (58 : Nat) ∉ raw := (splitOnce_none_iff 58 raw).mp (by rw [hsp])
    apply iff_of_true
    · exact ⟨.unpackError, by simp [decodeResponseLine, hne, hsp], rfl⟩
    · exact Or.inl hmem
  | some p =>
    have hmem : (58 : Nat) ∈ raw := by
      by_contra hn
      have h0 := (splitOnce_none_iff 58 raw).mpr hn
      rw [hsp] at h0
      simp at h0
    have hh := header_protocol_iff hd
    cases hhd : _get_response_header hd with
    | error e0 =>
      have hdec : decodeResponseLine raw = .error e0 := by
        simp [decodeResponseLine, hne, hsp, hhd]
      constructor
      · rintro ⟨e, he, hp⟩
        rw [hdec] at he
        injection he with h1
        rw [← h1] at hp
        exact Or.inr (hh.mp ⟨e0, hhd, hp⟩)
      · rintro (hr | hr)
        · exact absurd hmem hr
        · rcases hh.mpr hr with ⟨e1, he1, hp1⟩
          rw [hhd] at he1
          injection he1 with h1
          exact ⟨e0, hdec, by rw [h1]; exact hp1⟩
    | ok pr =>
      rcases pr with ⟨c0, ti0⟩
      have hforward :
          ¬(((splitOnByte 44 hd).length ≠ 2 ∧ (splitOnByte 44 hd).length ≠ 3) ∨
            (splitOnByte 44 hd).headD [] ≠ bytesOfAscii "%R1P") := by
        intro hr
        rcases hh.mpr hr with ⟨e1, he1, _⟩
        rw [hhd] at he1
        simp at he1
      apply iff_of_false
      · rintro ⟨e, he, hp⟩
        cases hpp : _get_response_parameters p with
        | error e2 =>
          have hdec : decodeResponseLine raw = .error e2 := by
            simp [decodeResponseLine, hne, hsp, hhd, hpp]
          rw [hdec] at he
          injection he with h2
          rw [← h2] at hp
          rw [params_error_not_protocol p e2 hpp] at hp
          simp at hp
        | ok pr2 =>
          rcases pr2 with ⟨r0, ps0⟩
          have hdec : decodeResponseLine raw = .ok (r0, ps0, ti0, c0) := by
            simp [decodeResponseLine, hne, hsp, hhd, hpp]
          rw [hdec] at he
          simp at he
      · rintro (hr | hr)
        · exact absurd hmem hr
        · exact hforward hr

/-- Witness for claim C5 at a concrete malformed reply (wrong reply-type
tag): decode fails with a protocol-class error. -/
theorem claim_C5_witness :
    bytesOfAscii "%R1X,0:0\r\n" ≠ [] ∧
    (∃ e, decodeResponseLine (bytesOfAscii "%R1X,0:0\r\n") = .error e ∧
      isProtocolError e = true) :=
  ⟨by decide,
    (claim_C5_protocol_error (bytesOfAscii "%R1X,0:0\r\n") (by decide)).mpr
      (by decide)⟩

/-- Claim C10: the decoder strips every trailing CR and LF byte from the
body, not just the single final terminator: appending any run of CR/LF
bytes to the raw parameters part leaves the decoded result unchanged; in
particular a reply whose last parameter wire value ends in extra CR/LF
bytes decodes without them. -/
theorem claim_C10_rstrip_all :
    (∀ raw_parameters tail : List Nat, (∀ b ∈ tail, b = 13 ∨ b = 10) →
      _get_response_parameters (raw_parameters ++ tail) =
        _get_response_parameters raw_parameters) ∧
    decodeResponseLine (bytesOfAscii "%R1P,0:0,AB" ++ [13, 13, 10, 10]) =
      .ok (0, [bytesOfAscii "AB"], none, 0) := by
  constructor
  · intro rp tail ht
    unfold _get_response_parameters
    rw [rstripCRLF_append rp tail ht]
  · rfl

/-- Witness for claim C10 at a concrete parameters part ending in extra
CR/LF bytes. -/
theorem claim_C10_witness :
    (∀ b ∈ ([13, 13, 10] : List Nat), b = 13 ∨ b = 10) ∧
    _get_response_parameters (bytesOfAscii "0,AB" ++ [13, 13, 10]) =
      _get_response_parameters (bytesOfAscii "0,AB") :=
  ⟨by decide, claim_C10_rstrip_all.1 (bytesOfAscii "0,AB") [13, 13, 10] (by decide)⟩

/-- Counterexample to claim C1: an open session whose transport write
raises. The scope-exit close sequence propagates the write error and the
transport is left open, contradicting the claim that the close sequence
never propagates and always closes the transport. -/
theorem claim_C1_counterexample :
    (exitTPS ⟨true, [], [], true⟩ .boundToSelf).1 = .error .serialWriteError ∧
    ((exitTPS ⟨true, [], [], true⟩ .boundToSelf).2.1).is_open = true :=
  ⟨rfl, rfl⟩

/-- Claim C1 as amended: on scope exit (with the global tps bound to the
session itself) the session issues execute(2008, [0, 0]) and then
execute(2020, [2]) without suppressing errors: an exception from either
cleanup exchange (including a raising transport write) propagates out of
the close sequence and the port keeps its prior open state; the
transport handle is closed only when both cleanup exchanges succeed. -/
theorem claim_C1_close_amended (self : Transport) :
    (∀ e self1,
      TPSConnection.execute self 2008 [PyVal.int 0, PyVal.int 0] none =
        (.error e, self1) →
      exitTPS self .boundToSelf = (.error e, self1, .boundToSelf) ∧
        self1.is_open = self.is_open) ∧
    (∀ a self1 e self2,
      TPSConnection.execute self 2008 [PyVal.int 0, PyVal.int 0] none =
        (.ok a, self1) →
      TPSConnection.execute self1 2020 [PyVal.int 2] none = (.error e, self2) →
      exitTPS self .boundToSelf = (.error e, self2, .boundToSelf) ∧
        self2.is_open = self1.is_open) ∧
    (∀ a self1 b self2,
      TPSConnection.execute self 2008 [PyVal.int 0, PyVal.int 0] none =
        (.ok a, self1) →
      TPSConnection.execute self1 2020 [PyVal.int 2] none = (.ok b, self2) →
      exitTPS self .boundToSelf = (.ok (), closeTransport self2, .boundToSelf) ∧
        (closeTransport self2).is_open = false) := by
  refine ⟨?_, ?_, ?_⟩
  · intro e self1 h
    refine ⟨by simp [exitTPS, h], ?_⟩
    have hio := execute_is_open self 2008 [PyVal.int 0, PyVal.int 0] none
    rw [h] at hio
    simpa using hio
  · intro a self1 e self2 h1 h2
    refine ⟨by simp [exitTPS, h1, h2], ?_⟩
    have hio := execute_is_open self1 2020 [PyVal.int 2] none
    rw [h2] at hio
    simpa using hio
  · intro a self1 b self2 h1 h2
    exact ⟨by simp [exitTPS, h1, h2], rfl⟩

/-- Witness for the amended claim C1: with both cleanup replies
successful, scope exit issues both commands and closes the transport. -/
theorem claim_C1_witness :
    exitTPS ⟨true, [bytesOfAscii "%R1P,0:0\r\n", bytesOfAscii "%R1P,0:0\r\n"],
        [], false⟩ .boundToSelf =
      (.ok (), closeTransport ⟨true, [],
        [bytesOfAscii "%R1Q,2008:0,0\r\n", bytesOfAscii "%R1Q,2020:2\r\n"],
        false⟩, .boundToSelf) ∧
    (closeTransport ⟨true, [],
      [bytesOfAscii "%R1Q,2008:0,0\r\n", bytesOfAscii "%R1Q,2020:2\r\n"],
      false⟩).is_open = false :=
  (claim_C1_close_amended
      ⟨true, [bytesOfAscii "%R1P,0:0\r\n", bytesOfAscii "%R1P,0:0\r\n"], [],
        false⟩).2.2
    (0, [], none, 0)
    ⟨true, [bytesOfAscii "%R1P,0:0\r\n"], [bytesOfAscii "%R1Q,2008:0,0\r\n"],
      false⟩
    (0, [], none, 0)
    ⟨true, [],
      [bytesOfAscii "%R1Q,2008:0,0\r\n", bytesOfAscii "%R1Q,2020:2\r\n"],
      false⟩
    rfl rfl

/-- Claim C9: during the scope-exit cleanup sequence the second cleanup
command (rpc 2020) goes through the module-level global name tps: once
the first cleanup exchange has succeeded, an unbound global makes scope
exit raise NameError, and a global bound to a different connection makes
the 2020 request frame be written to that other connection while the
write log of the session being closed stays as it was after the first
command. -/
theorem claim_C9_global_tps (self self1 : Transport) (a : DecodedReply)
    (hfst : TPSConnection.execute self 2008 [PyVal.int 0, PyVal.int 0] none =
      (.ok a, self1)) :
    exitTPS self .unbound = (.error .nameError, self1, .unbound) ∧
    (∀ other : Transport, other.is_open = true → other.writeFails = false →
      ∃ result selfF other1,
        exitTPS self (.boundToOther other) = (result, selfF, .boundToOther other1) ∧
        other1.written = other.written ++ [bytesOfAscii "%R1Q,2020:2\r\n"] ∧
        selfF.written = self1.written) := by
  constructor
  · simp [exitTPS, hfst]
  · intro other ho hw
    have hwr := execute_written_ok other 2020 [PyVal.int 2] none
      (bytesOfAscii "%R1Q,2020:2\r\n") ho hw rfl
    rcases h2 : TPSConnection.execute other 2020 [PyVal.int 2] none with ⟨res2, other1⟩
    rw [h2] at hwr
    cases res2 with
    | error e =>
      exact ⟨.error e, self1, other1, by simp [exitTPS, hfst, h2],
        by simpa using hwr, rfl⟩
    | ok u =>
      exact ⟨.ok (), closeTransport self1, other1, by simp [exitTPS, hfst, h2],
        by simpa using hwr, rfl⟩

/-- Witness for claim C9: concrete session whose first cleanup exchange
succeeds and whose global tps is unbound: scope exit raises NameError. -/
theorem claim_C9_witness :
    exitTPS ⟨true, [bytesOfAscii "%R1P,0:0\r\n"], [], false⟩ .unbound =
      (.error .nameError,
        ⟨true, [], [bytesOfAscii "%R1Q,2008:0,0\r\n"], false⟩, .unbound) :=
  (claim_C9_global_tps ⟨true, [bytesOfAscii "%R1P,0:0\r\n"], [], false⟩
    ⟨true, [], [bytesOfAscii "%R1Q,2008:0,0\r\n"], false⟩ (0, [], none, 0)
    rfl).1
